import Mathlib

/-!
Verification development for DistroBuildSync (distrobuildsync_twisted).

The Python sources under `distrobuildsync/` are shallowly embedded below:
strings are Lean `String`s (a structure over `List Char` in this toolchain),
Python `str.split`, `str.replace`, `str.startswith`, `str.endswith` are
re-implemented structurally so that every definition is executable and
kernel-reducible; YAML documents are modelled by the inductive `Y`;
stateful functions (`load_config`, `update_config`, the awaited-repo
registry) are modelled by explicit state passing; functions that may
return Python `None` return `Option`, and code paths that raise an
uncaught exception are modelled by an explicit error outcome.
-/

deriving instance DecidableEq for Except

namespace DBS

/-- Python `s.split(sep)` for a single-character separator, on char lists.
Mirrors CPython semantics: the result is never empty, `"".split(c) = [""]`,
and adjacent separators yield empty segments. -/
def pySplit (sep : Char) : List Char → List (List Char)
  | [] => [[]]
  | c :: cs =>
    if c = sep then [] :: pySplit sep cs
    else
      match pySplit sep cs with
      | [] => [[c]]
      | seg :: rest => (c :: seg) :: rest

/-- Python `s.split(sep, 1)` for a single-character separator: split at the
first occurrence only.  The second component is `none` when the separator
does not occur. -/
def pySplit1 (sep : Char) : List Char → List Char × Option (List Char)
  | [] => ([], none)
  | c :: cs =>
    if c = sep then ([], some cs)
    else
      let r := pySplit1 sep cs
      (c :: r.1, r.2)

/-- Fuel-driven worker for Python `str.replace`: replaces every
non-overlapping occurrence of `old` left to right.  The fuel starts at the
length of the subject string; each step consumes at least one character,
so the fuel never runs out on the initial call. -/
def replFuel (old new : List Char) : Nat → List Char → List Char
  | 0, s => s
  | _, [] => []
  | fuel + 1, c :: cs =>
    if old ≠ [] ∧ old.isPrefixOf (c :: cs) then
      new ++ replFuel old new fuel ((c :: cs).drop old.length)
    else
      c :: replFuel old new fuel cs

/-- Python `s.replace(old, new)` on Lean strings (for non-empty `old`,
the only way the source uses it). -/
def pyReplace (s old new : String) : String :=
  ⟨replFuel old.data new.data s.data.length s.data⟩

/-- Python `s.startswith(p)`. -/
def pyStartsWith (s p : String) : Bool :=
  p.data.isPrefixOf s.data

/-- Python `s.endswith(p)`. -/
def pyEndsWith (s p : String) : Bool :=
  p.data.reverse.isPrefixOf s.data.reverse

/-- Python `s.split(sep)` on Lean strings. -/
def pySplitS (sep : Char) (s : String) : List String :=
  (pySplit sep s.data).map (fun l => ⟨l⟩)

/-!
## `config.split_scmurl` (config.py:78-97)

```python
def split_scmurl(url):
    scm = url.split("#", 1)
    nscomp = scm[0].split("/")
    return {
        "link": scm[0],
        "ref": scm[1] if len(scm) >= 2 else None,
        "ns": nscomp[-2] if len(nscomp) >= 2 else None,
        "comp": nscomp[-1] if nscomp else None,
    }
```

Negative indexing is rendered through `List.reverse`/`List.get?`:
`nscomp[-2] if len(nscomp) >= 2 else None` is exactly
`nscomp.reverse.get? 1`, and `nscomp[-1] if nscomp else None` is exactly
`nscomp.reverse.get? 0` (a Python `str.split` result is never empty).
-/

structure SCMParts where
  link : String
  ref : Option String
  ns : Option String
  comp : Option String
deriving Repr, DecidableEq

def split_scmurl (url : String) : SCMParts :=
  let scm := pySplit1 '#' url.data
  let nscomp := pySplit '/' scm.1
  { link := ⟨scm.1⟩
    ref := scm.2.map (fun l => ⟨l⟩)
    ns := (nscomp.reverse.get? 1).map (fun l => ⟨l⟩)
    comp := (nscomp.reverse.get? 0).map (fun l => ⟨l⟩) }

/-!
## `config.split_module` (config.py:100-112)

```python
def split_module(comp):
    ms = comp.split(":")
    return {
        "name": ms[0],
        "stream": ms[1] if len(ms) > 1 and ms[1] else "master",
    }
```
-/

structure ModuleName where
  name : String
  stream : String
deriving Repr, DecidableEq

def split_module (comp : String) : ModuleName :=
  let ms := pySplitS ':' comp
  { name := ms.headD ""
    stream :=
      match ms.get? 1 with
      | some s => if s ≠ "" then s else "master"
      | none => "master" }

/-!
## YAML values

`Y` models the values `yaml.safe_load` can produce as far as
`distrobaker.yaml` is concerned: strings, booleans, integers, null,
mappings (association lists in document order; YAML mapping keys are
unique) and sequences.
-/

inductive Y where
  | s (v : String)
  | b (v : Bool)
  | i (v : Int)
  | nul
  | m (kvs : List (String × Y))
  | l (vs : List Y)
deriving Repr

/-- Python `d[k]` / `k in d` on a YAML mapping: `some` the first binding
for `k`, `none` when `k` is absent or the value is not a mapping. -/
def Y.find : Y → String → Option Y
  | .m kvs, k => kvs.lookup k
  | _, _ => none

/-- Python `str(v)` on a YAML scalar.  The configuration loader only ever
applies `str` to scalar leaves; the container cases are abbreviated and
are not relied upon by any theorem below. -/
def pyStr : Y → String
  | .s v => v
  | .b true => "True"
  | .b false => "False"
  | .i v => toString v
  | .nul => "None"
  | .m _ => "<dict>"
  | .l _ => "<list>"

/-- Python `bool(v)` / truthiness of a YAML value. -/
def pyBool : Y → Bool
  | .s v => v ≠ ""
  | .b v => v
  | .i v => v ≠ 0
  | .nul => false
  | .m kvs => !kvs.isEmpty
  | .l vs => !vs.isEmpty

/-- Python iteration over a YAML value as used by
`set().update(cnf["control"]["exclude"][cns])`: a sequence yields its
(string) elements, a mapping yields its keys.  The exclude lists in a
`distrobaker.yaml` are lists of component-name strings. -/
def Y.iterStrs : Y → List String
  | .l vs => vs.filterMap (fun v => match v with | .s w => some w | _ => none)
  | .m kvs => kvs.map Prod.fst
  | _ => []

-- Sanity checks against tests/test_misc.py
example : split_scmurl "" =
    { link := "", ref := none, ns := none, comp := some "" } := by decide
example : split_scmurl "/tmp/conf#testbranch" =
    { link := "/tmp/conf", ref := some "testbranch", ns := some "tmp",
      comp := some "conf" } := by decide
example : split_scmurl "conf" =
    { link := "conf", ref := none, ns := none, comp := some "conf" } := by
  decide
example : split_module "" = { name := "", stream := "master" } := by decide
example : split_module ":" = { name := "", stream := "master" } := by decide
example : split_module "name:stream:version:context" =
    { name := "name", stream := "stream" } := by decide
example : pyReplace "f42-gate" "-gate" "-build" = "f42-build" := by decide

/-!
## Configuration data model

The validated configuration `n` built by `load_config`
(config.py:263-404), as explicit records.  Two families of fields are
`Option`s because the source's validation *logs* their absence but does
not abort on it (no `return None` in those two branches):
`trigger.rpms` / `trigger.modules` (config.py:304-308) and
`defaults.<dk>.<source|destination>` (config.py:383-393).
-/

structure CacheCfg where
  url : String
  cgi : String
  path : String
deriving Repr

structure EndpointCfg where
  scm : String
  cache : CacheCfg
  profile : String
  mbs : Y
deriving Repr

structure TriggerCfg where
  rpms : Option String
  modules : Option String
deriving Repr

structure BuildCfg where
  pfx : String        -- `prefix` in the source
  target : String
  platform : String
  scratch : Bool
deriving Repr

structure GitCfg where
  author : String
  email : String
  message : String
deriving Repr

structure ExcludeCfg where
  rpms : List String
  modules : List String
deriving Repr

structure ControlCfg where
  build : Bool
  merge : Bool
  strict : Bool
  autopackagelist : Y   -- Python `None` is modelled by `Y.nul`
  exclude : ExcludeCfg
deriving Repr

structure DefaultsPair where
  source : Option String
  destination : Option String
deriving Repr

structure DefaultsCfg where
  cache : DefaultsPair
  rpms : DefaultsPair
  modules : DefaultsPair
deriving Repr

structure MainCfg where
  source : EndpointCfg
  destination : EndpointCfg
  trigger : TriggerCfg
  build : BuildCfg
  git : GitCfg
  control : ControlCfg
  defaults : DefaultsCfg
deriving Repr

/-- A per-component route in `comps` (source, destination, cache pair). -/
structure Route where
  source : String
  destination : String
  cacheSource : String
  cacheDestination : String
deriving Repr

/-- The synthesized `comps` mapping: `rpms: name -> route`,
`modules: "name:stream" -> route`, in insertion order. -/
structure Comps where
  rpms : List (String × Route)
  modules : List (String × Route)
deriving Repr

/-- `config.main["control"]["exclude"][ns]` for `ns` one of
`"rpms"`/`"modules"`. -/
def MainCfg.excludeOf (cfg : MainCfg) (ns : String) : List String :=
  if ns = "rpms" then cfg.control.exclude.rpms else cfg.control.exclude.modules

/-- The key set of `config.comps[ns]` for `ns` one of
`"rpms"`/`"modules"`. -/
def Comps.keysOf (c : Comps) (ns : String) : List String :=
  if ns = "rpms" then c.rpms.map Prod.fst else c.modules.map Prod.fst

/-!
## Structural validation (config.py:263-404)

`parseMainCfg` transcribes the validation pass over the `configuration`
block.  Each `return None` in the source is an `Option.none` here; the
two log-but-continue branches (trigger leaves, defaults leaves) produce
`none`-valued record fields instead of aborting, exactly as the source
does.  Logging is dropped.
-/

def parseCacheCfg (c : Y) : Option CacheCfg := do
  let url ← c.find "url"
  let cgi ← c.find "cgi"
  let path ← c.find "path"
  pure { url := pyStr url, cgi := pyStr cgi, path := pyStr path }

def parseEndpoint (v : Y) : Option EndpointCfg := do
  let scm ← v.find "scm"
  let cacheY ← v.find "cache"
  let cache ← parseCacheCfg cacheY
  let profile ← v.find "profile"
  let mbs ← v.find "mbs"
  pure { scm := pyStr scm, cache := cache, profile := pyStr profile,
         mbs := mbs }

/-- The trigger block: a missing `rpms`/`modules` key only logs
"Configuration error: trigger.%s missing." and continues
(config.py:304-308). -/
def parseTrigger (t : Y) : TriggerCfg :=
  { rpms := (t.find "rpms").map pyStr
    modules := (t.find "modules").map pyStr }

def parseBuild (b : Y) : Option BuildCfg := do
  let p ← b.find "prefix"
  let target ← b.find "target"
  let platform ← b.find "platform"
  let scratch :=
    match b.find "scratch" with
    | some v => pyBool v
    | none => false   -- "assuming false" (config.py:320-326)
  pure { pfx := pyStr p, target := pyStr target, platform := pyStr platform,
         scratch := scratch }

def parseGit (g : Y) : Option GitCfg := do
  let author ← g.find "author"
  let email ← g.find "email"
  let message ← g.find "message"
  pure { author := pyStr author, email := pyStr email,
         message := pyStr message }

def parseControl (c : Y) : Option ControlCfg := do
  let build ← c.find "build"
  let merge ← c.find "merge"
  let strict ← c.find "strict"
  let apl := (c.find "autopackagelist").getD Y.nul
  let exclude :=
    match c.find "exclude" with
    | some e =>
        { rpms := ((e.find "rpms").map Y.iterStrs).getD []
          modules := ((e.find "modules").map Y.iterStrs).getD []
          : ExcludeCfg }
    | none => { rpms := [], modules := [] }
  pure { build := pyBool build, merge := pyBool merge,
         strict := pyBool strict, autopackagelist := apl,
         exclude := exclude }

/-- A `defaults.<dk>` block: the inner `source`/`destination` keys only
log "Configuration error: defaults.%s.%s missing." and continue
(config.py:383-393). -/
def parseDefaultsPair (d : Y) : DefaultsPair :=
  { source := (d.find "source").map pyStr
    destination := (d.find "destination").map pyStr }

def parseDefaults (d : Y) : Option DefaultsCfg := do
  let cache ← d.find "cache"
  let rpms ← d.find "rpms"
  let modules ← d.find "modules"
  pure { cache := parseDefaultsPair cache, rpms := parseDefaultsPair rpms,
         modules := parseDefaultsPair modules }

/-- The whole validation pass of `load_config` over the parsed YAML
document `y` (config.py:263-404). -/
def parseMainCfg (y : Y) : Option MainCfg := do
  let cnf ← y.find "configuration"
  let src ← cnf.find "source"
  let source ← parseEndpoint src
  let dst ← cnf.find "destination"
  let destination ← parseEndpoint dst
  let trigY ← cnf.find "trigger"
  let buildY ← cnf.find "build"
  let build ← parseBuild buildY
  let gitY ← cnf.find "git"
  let git ← parseGit gitY
  let ctlY ← cnf.find "control"
  let control ← parseControl ctlY
  let defY ← cnf.find "defaults"
  let defaults ← parseDefaults defY
  pure { source := source, destination := destination,
         trigger := parseTrigger trigY, build := build, git := git,
         control := control, defaults := defaults }

/-!
## Component synthesis (config.py:405-463)

Template interpolation (`"..." % {"component": ..., "stream": ...}`)
is modelled for the two placeholders the configuration templates use,
`%(component)s` and `%(stream)s`; any other text is left literal.
A `KeyError` — reading a `defaults` leaf that the log-but-continue
validation left unset, or `autopackagelist["view"]` when absent — and a
`TypeError` — `"content_resolver" in None` when the YAML has neither a
`components` block nor a usable `autopackagelist` — are uncaught in the
source and are modelled as `Except.error`.
-/

def interp (tmpl comp stream : String) : String :=
  pyReplace (pyReplace tmpl "%(component)s" comp) "%(stream)s" stream

/-- Synthesize one route: defaults first (config.py:435-447, raising
`KeyError` when a defaults leaf is missing), then field-by-field
overrides from the explicit component entry (config.py:448-458). -/
def synthRoute (defaults : DefaultsCfg) (k p : String) (override : Y) :
    Except Unit Route := do
  let cname := if k = "modules" then (split_module p).name else p
  let sname := if k = "modules" then (split_module p).stream else ""
  let dPair := if k = "modules" then defaults.modules else defaults.rpms
  let dsrc ← (dPair.source.map Except.ok).getD (.error ())
  let ddst ← (dPair.destination.map Except.ok).getD (.error ())
  let dcsrc ← (defaults.cache.source.map Except.ok).getD (.error ())
  let dcdst ← (defaults.cache.destination.map Except.ok).getD (.error ())
  -- `if cnf[k][p] is None: cnf[k][p] = dict()` (config.py:448-449)
  let ov := match override with | .nul => Y.m [] | v => v
  let source :=
    match ov.find "source" with
    | some v => pyStr v
    | none => interp dsrc cname sname
  let destination :=
    match ov.find "destination" with
    | some v => pyStr v
    | none => interp ddst cname sname
  let cacheSource :=
    match (ov.find "cache").bind (fun c => c.find "source") with
    | some v => pyStr v
    | none => interp dcsrc cname sname
  let cacheDestination :=
    match (ov.find "cache").bind (fun c => c.find "destination") with
    | some v => pyStr v
    | none => interp dcdst cname sname
  pure { source := source, destination := destination,
         cacheSource := cacheSource, cacheDestination := cacheDestination }

/-- One namespace of the synthesis loop
(`for p in cnf[k].keys():`, config.py:426-458). -/
def synthNs (defaults : DefaultsCfg) (k : String)
    (entries : List (String × Y)) : Except Unit (List (String × Route)) :=
  entries.mapM (fun e => do
    let r ← synthRoute defaults k e.1 e.2
    pure (e.1, r))

/-- Build `comps` from the YAML document `y` and the validated `n`
(config.py:405-463).  `autoFetch` is the Content-Resolver package list
for the `autopackagelist` path (`get_distro_packages`,
config.py:169-206); `none` models the HTTP request raising. -/
def buildComps (y : Y) (n : MainCfg) (autoFetch : Option (List String)) :
    Except Unit Comps := do
  -- `if "components" in y or "autopackagelist" in n["control"]:` —
  -- the second disjunct is always true (the key is created
  -- unconditionally at config.py:350).
  let cnf ←
    match y.find "components" with
    | some c => Except.ok c
    | none =>
      match n.control.autopackagelist with
      | .m kvs =>
          -- both branches read autopackagelist["view"] (config.py:413-423)
          match (Y.m kvs).find "view" with
          | some _ =>
              match autoFetch with
              | some pkgs =>
                  -- `{"rpms": dict.fromkeys(merged_packages)}`
                  Except.ok (Y.m [("rpms", Y.m (pkgs.map (fun p => (p, Y.nul))))])
              | none => Except.error ()      -- requests.get raised
          | none => Except.error ()          -- KeyError: "view"
      | _ => Except.error ()  -- `"content_resolver" in None` -> TypeError
  let rpms ←
    match cnf.find "rpms" with
    | some (.m entries) => synthNs n.defaults "rpms" entries
    | some _ => Except.error ()   -- `.keys()` on a non-mapping
    | none => Except.ok []
  let modules ←
    match cnf.find "modules" with
    | some (.m entries) => synthNs n.defaults "modules" entries
    | some _ => Except.error ()
    | none => Except.ok []
  pure { rpms := rpms, modules := modules }

/-!
## `load_config` (config.py:212-481) and `update_config`
(config.py:141-166) as state transitions

The observable state is the module-global triple
`main` / `comps` / `config_ref`.  The environment of one call records
what the outside world did: how many clone attempts failed, whether
`distrobaker.yaml` existed and parsed, and what the Content Resolver
returned.
-/

structure GState where
  main : Option MainCfg
  comps : Option Comps
  config_ref : Option String

structure LoadEnv where
  /-- Number of failing `git.Repo.clone_from(...).git.checkout(...)`
  attempts before one succeeds; the load gives up when this reaches
  `retry` (config.py:229-246). -/
  cloneFailures : Nat
  /-- `none`: no `distrobaker.yaml` in the clone; `some none`: the file
  exists but `yaml.safe_load` raised; `some (some y)`: parsed to `y`. -/
  yamlFile : Option (Option Y)
  /-- Content-Resolver fetch result (see `buildComps`). -/
  autoFetch : Option (List String)

inductive LoadOutcome where
  | ok (main : MainCfg) (comps : Comps)   -- returned `(main, comps)`
  | fail                                  -- returned `None`
  | exn                                   -- raised an uncaught exception

def LoadOutcome.isOk : LoadOutcome → Bool
  | .ok _ _ => true
  | _ => false

/-- `config.load_config()`.  The globals `main`/`comps` are assigned only
at the very end (config.py:479-480); every failure path returns first. -/
def load_config (retry : Nat) (env : LoadEnv) (st : GState) :
    GState × LoadOutcome :=
  if retry ≤ env.cloneFailures then
    (st, .fail)             -- for-else: "giving up" (config.py:244-246)
  else
    match env.yamlFile with
    | none => (st, .fail)         -- distrobaker.yaml absent (config.py:258-262)
    | some none => (st, .fail)    -- could not parse (config.py:255-257)
    | some (some y) =>
      match parseMainCfg y with
      | none => (st, .fail)       -- a validation `return None`
      | some n =>
        match buildComps y n env.autoFetch with
        | .error _ => (st, .exn)
        | .ok nc =>
          ({ st with main := some n, comps := some nc }, .ok n nc)

inductive UpdOutcome where
  | ok           -- swapped in a new configuration
  | skipped      -- ref unchanged and no autopackagelist: nothing to do
  | configError  -- UnknownRefError caught, ConfigError raised
  | exn          -- an uncaught exception escaped the tick

def UpdOutcome.isOk : UpdOutcome → Bool
  | .ok => true
  | _ => false

/-- `config.update_config()`.  `lsRemote` is the ref hash parsed from
`git ls-remote` output (`get_config_ref`, config.py:115-138); `none`
models empty output, i.e. `UnknownRefError`.  A `load_config` returning
`None` makes the tuple assignment `main, comps = yield load_config()`
raise a `TypeError`; either way the globals keep their prior values. -/
def update_config (retry : Nat) (lsRemote : Option String) (env : LoadEnv)
    (st : GState) : GState × UpdOutcome :=
  match lsRemote with
  | none => (st, .configError)
  | some ref =>
    match st.main with
    | none => (st, .exn)   -- `main["control"]` on an unconfigured process
    | some m =>
      if some ref = st.config_ref ∧ ¬ pyBool m.control.autopackagelist then
        (st, .skipped)
      else
        match load_config retry env st with
        | (st', .ok _ _) => ({ st' with config_ref := some ref }, .ok)
        | (st', .fail) => (st', .exn)   -- unpacking None raises TypeError
        | (st', .exn) => (st', .exn)

/-!
## Build-system helper results

`get_build_info` (kojihelpers.py:86-137) returns a dictionary with
`scmurl`, `name`, `stream`, `module_version`, `modulemd` (the module
fields are `None` for non-module builds), or `None` on its logged
failure paths.
-/

structure BuildInfo where
  scmurl : String
  name : Option String
  stream : Option String
  module_version : Option String
  modulemd : Option String
deriving Repr, DecidableEq

/-- `RebuildData` (listener.py:14-26).  `version`/`release` are `None`
when assembled by oneshot mode (daemon.py:157); `scmurl` is `None` when
`get_scmurl` failed (kojihelpers.py:287,293). -/
structure RebuildData where
  ns : String
  comp : String
  version : Option String
  release : Option String
  scmurl : Option String
  downstream_target : Option String
  ref_overrides : Option (List (String × String))
deriving Repr, DecidableEq

/-!
## Message classifier (listener.py:29-108, tagging topics)

`classify` is the pure part of `process_message` on a `buildsys.tag`
message.  The environment records what each build-system call returned
for this event; `Except.error` models the call raising, `Option.none`
models it returning Python `None`.
-/

structure TagMsg where
  topic : String
  tag : String
  name : String
  version : String
  release : String

structure ClassifyEnv where
  /-- `kojihelpers.get_build_info(nvr)` for this event's NVR:
  `.error` = raised, `.ok none` = returned `None`. -/
  buildInfo : Except Unit (Option BuildInfo)
  /-- `kojihelpers.get_ref_overrides(modulemd)` applied to the
  build-info's `modulemd` value (raises on an unparsable or `None`
  manifest). -/
  refOverrides : Except Unit (List (String × String))
  /-- `kojihelpers.create_side_tag(main.build.target, tag)`. -/
  sideTag : Except Unit String
  /-- `kojihelpers.get_scmurl(build_id)`: `.ok none` models the caught
  `koji.GenericError` path that logs and returns `None`
  (kojihelpers.py:289-293). -/
  scmurl : Except Unit (Option String)

inductive ClassifyOutcome where
  | ignored                     -- an early `return`
  | exn                         -- an uncaught exception escaped the handler
  | enqueued (rd : RebuildData) -- `message_queue.put(rd)` (listener.py:108)
deriving Repr, DecidableEq

/-- The stack-gate / side-tag pattern of listener.py:65-67 and 93-95:
`tag.startswith(ubt) and tag.endswith("-stack-gate")` or
`tag.startswith(ubt + "-side")`. -/
def sideTagPattern (ubt tag : String) : Bool :=
  (pyStartsWith tag ubt && pyEndsWith tag "-stack-gate")
    || pyStartsWith tag (ubt ++ "-side")

def classify (cfg : MainCfg) (comps : Comps) (env : ClassifyEnv)
    (msg : TagMsg) : ClassifyOutcome :=
  if ¬ pyEndsWith msg.topic "buildsys.tag" then .ignored
  else
    match cfg.trigger.rpms with
    | none => .exn   -- KeyError: config.main["trigger"]["rpms"] (listener.py:58)
    | some trpms =>
      let ubt := pyReplace trpms "-gate" "-build"
      let tag := msg.tag
      let nsResult : Except Unit (Option String) :=
        if tag = trpms then .ok (some "rpms")
        else if sideTagPattern ubt tag then .ok (some "rpms")
        else
          match cfg.trigger.modules with
          | none => .error ()   -- KeyError: trigger["modules"] (listener.py:69)
          | some tmods => if tag = tmods then .ok (some "modules") else .ok none
      match nsResult with
      | .error _ => .exn
      | .ok none => .ignored    -- "not configured as a trigger, ignoring"
      | .ok (some ns) =>
        if cfg.control.strict ∧ msg.name ∉ comps.keysOf ns then .ignored
        else if msg.name ∈ cfg.excludeOf ns then .ignored
        else
          -- enrichment (listener.py:86-99); note the module check reads
          -- trigger["modules"] unconditionally (listener.py:87)
          match cfg.trigger.modules with
          | none => .exn
          | some tmods =>
            let enriched : Except Unit
                (Option String × Option (List (String × String))) :=
              if tag = tmods then
                match env.buildInfo with
                | .error _ => .error ()
                | .ok none => .error ()  -- bi["modulemd"] on None: TypeError
                | .ok (some _) =>
                  match env.refOverrides with
                  | .error _ => .error ()
                  | .ok ro => .ok (none, some ro)
              else if sideTagPattern ubt tag then
                match env.sideTag with
                | .error _ => .error ()
                | .ok t => .ok (some t, none)
              else .ok (none, none)
            match enriched with
            | .error _ => .exn
            | .ok (target_override, ref_overrides) =>
              match env.scmurl with
              | .error _ => .exn
              | .ok scmurl =>
                .enqueued
                  { ns := ns, comp := msg.name,
                    version := some msg.version,
                    release := some msg.release, scmurl := scmurl,
                    downstream_target := target_override,
                    ref_overrides := ref_overrides }

/-!
## Awaited-repo registry (listener.py:32-44, kojihelpers.py:298-304)

`config.awaited_repos` is a `defaultdict(list)` from build-tag to the
pending `Deferred`s.  A handle is a `Deferred` with its 15-minute
timeout; `called = true` models a deferred that has already fired
(e.g. resolved by timeout), whose re-fire raises `AlreadyCalledError`
and is ignored (listener.py:39-42).  Keys of the registry are unique
(it is a Python dict), so `del` is filtering the key out.
-/

structure Handle where
  id : Nat
  called : Bool
deriving Repr, DecidableEq

abbrev Registry := List (String × List Handle)

/-- Python dict key lookup (dict keys are unique). -/
def lookupReg : Registry → String → Option (List Handle)
  | [], _ => none
  | e :: es, tag => if e.1 = tag then some e.2 else lookupReg es tag

/-- Python `del awaited_repos[tag]`. -/
def eraseReg : Registry → String → Registry
  | [], _ => []
  | e :: es, tag => if e.1 = tag then eraseReg es tag else e :: eraseReg es tag

/-- The `buildsys.repo.done` branch of `process_message`
(listener.py:33-44): when the tag is registered, fire every handle
(skipping already-called ones, whose `AlreadyCalledError` is swallowed)
and delete the entry; a membership test on a `defaultdict` does not
create an entry, so an unknown tag is a no-op.  Returns the new registry
and the ids actually fulfilled. -/
def process_repo_done (reg : Registry) (tag : String) :
    Registry × List Nat :=
  match lookupReg reg tag with
  | none => (reg, [])
  | some hs =>
      (eraseReg reg tag, (hs.filter (fun h => !h.called)).map Handle.id)

/-- `kojihelpers.wait_repo(tag)`: register a fresh pending handle under
`tag` (`config.awaited_repos[tag].append(deferred)`; the defaultdict
creates the empty list when the key is new). -/
def wait_repo (reg : Registry) (tag : String) (hid : Nat) : Registry :=
  match lookupReg reg tag with
  | none => reg ++ [(tag, [⟨hid, false⟩])]
  | some _ =>
      reg.map (fun e => if e.1 = tag then (e.1, e.2 ++ [⟨hid, false⟩]) else e)

/-!
## Orchestrator build step (listener.py:158-186, kojihelpers.py:307-320)

`build_components` is modelled as the trace of build-system and HTTP
operations it performs.  The source opens
`with bsys.multicall(batch=config.koji_batch) as mc:` but then submits
every build with `bsys.build(...)` — a direct call on the session, not
on `mc` — so the trace distinguishes `mcBuild` (a call queued on the
multicall, which the source never performs here) from `sessionBuild`
(an immediate individual RPC).
-/

inductive KojiOp where
  | mcOpen (batch : Nat)
  | mcBuild (scmurl target : String) (scratch : Bool)
  | sessionBuild (scmurl target : String) (scratch : Bool)
  | gitSync (ns comp : String)
  | mcClose
deriving Repr, DecidableEq

/-- Python truthiness of `config.distrogitsync` (`None` or a string). -/
def truthyStrOpt : Option String → Bool
  | none => false
  | some s => s ≠ ""

/-- `kojihelpers.call_distrogitsync(ns, comp, ref_overrides)`: POST
`<endpoint>/<ns>/<comp>` for the component itself and for each rpm named
by `ref_overrides`; when no endpoint is configured the loop
body is skipped entirely.  HTTP errors are caught and logged per
component (kojihelpers.py:318-320) and do not affect the trace. -/
def call_distrogitsync (endpoint : Option String) (ns comp : String)
    (ref_overrides : Option (List (String × String))) : List KojiOp :=
  let compset := (ns, comp) :: (ref_overrides.getD []).map (fun c => ("rpms", c.1))
  compset.foldr (fun nc acc =>
    (if truthyStrOpt endpoint then [KojiOp.gitSync nc.1 nc.2] else []) ++ acc) []

/-- The `for rd in builds:` body of `build_components`
(listener.py:165-186), accumulating the operation trace.  A `None`
`scmurl` on a `RebuildData` makes `config.split_scmurl(rd.scmurl)` raise
(`AttributeError` on `None.split`), modelled as `Except.error`; a build
whose upstream scmurl carries no `#ref` renders the literal `"None"`
into the downstream f-string. -/
def build_components_loop (cfg : MainCfg) (dry_run : Bool)
    (endpoint : Option String) (target : String) :
    List RebuildData → Except Unit (List KojiOp)
  | [] => .ok []
  | rd :: rest =>
    match rd.scmurl with
    | none => .error ()   -- None.split in split_scmurl: AttributeError
    | some url =>
      let ref := (split_scmurl url).ref
      let downstream := cfg.build.pfx ++ "/" ++ rd.ns ++ "/" ++ rd.comp ++ "#"
        ++ (match ref with | some r => r | none => "None")
      let here :=
        if dry_run then []
        else
          call_distrogitsync endpoint rd.ns rd.comp rd.ref_overrides
            ++ [KojiOp.sessionBuild downstream target cfg.build.scratch]
      match build_components_loop cfg dry_run endpoint target rest with
      | .error e => .error e
      | .ok tail => .ok (here ++ tail)

/-- `listener.build_components(target, builds)`: open the multicall
context with `batch=config.koji_batch`, run the per-build loop, close
the context.  The bound variable `mc` of the source's `with` statement
is never used; every submission is `bsys.build(...)` on the session. -/
def build_components (cfg : MainCfg) (dry_run : Bool)
    (endpoint : Option String) (koji_batch : Nat) (target : Option String)
    (builds : List RebuildData) : Except Unit (List KojiOp) :=
  let target :=
    match target with
    | none => cfg.build.target    -- `if not target:` (listener.py:161-162)
    | some t => if t = "" then cfg.build.target else t
  match build_components_loop cfg dry_run endpoint target builds with
  | .error e => .error e
  | .ok inner => .ok ([KojiOp.mcOpen koji_batch] ++ inner ++ [KojiOp.mcClose])

/-!
## Oneshot mode (daemon.py:90-165)

`oneshot` iterates `sorted(compset, key=str.lower)`, filters each
member through the selector regex, the exclude list and strict mode,
enriches it and appends a `RebuildData`; the assembled list is handed to
`build_components(None, rd_list)`.

The Python local `ref_overrides` is assigned only inside
`if ref:` (daemon.py:151-155); on an iteration whose scmurl has no
truthy `#ref` the variable keeps whatever the previous iteration left in
it (or is still unbound, raising `UnboundLocalError` at daemon.py:157).
The accumulator's second component models that local:
`none` = unbound, `some v` = currently holds `v`.
-/

/-- The character class of the selector regex
`^(rpms|modules)/[A-Za-z0-9:._+-]+$` (daemon.py:18-20). -/
def selValidChar (c : Char) : Bool :=
  c.isAlphanum || c ∈ [':', '.', '_', '+', '-']

/-- Matching a `ns/comp` selector against the daemon's regex. -/
def matchSelector (rec : String) : Option (String × String) :=
  if pyStartsWith rec "rpms/" then
    let c : String := ⟨rec.data.drop 5⟩
    if c ≠ "" ∧ c.data.all selValidChar then some ("rpms", c) else none
  else if pyStartsWith rec "modules/" then
    let c : String := ⟨rec.data.drop 8⟩
    if c ≠ "" ∧ c.data.all selValidChar then some ("modules", c) else none
  else none

/-- Code-point lexicographic `<` on strings (Python's string
comparison). -/
def charListLt : List Char → List Char → Bool
  | [], [] => false
  | [], _ :: _ => true
  | _ :: _, [] => false
  | a :: as, b :: bs =>
      if a.toNat < b.toNat then true
      else if b.toNat < a.toNat then false
      else charListLt as bs

def pyStrLt (a b : String) : Bool :=
  charListLt a.data b.data

/-- Python `sorted(compset, key=str.lower)`: insertion sort on the
lower-cased key (stable, as Python's sort is). -/
def lowerKey (s : String) : String :=
  ⟨s.data.map Char.toLower⟩

def insertByLower (a : String) : List String → List String
  | [] => [a]
  | b :: bs =>
      if pyStrLt (lowerKey b) (lowerKey a) then b :: insertByLower a bs
      else a :: b :: bs

def pySortedLower (l : List String) : List String :=
  l.foldr insertByLower []

structure OneshotEnv where
  /-- `kojihelpers.get_build(comp, ns)` (kojihelpers.py:152-247):
  the latest tagged NVR, or `None`. -/
  get_build : String → String → Option String
  /-- `kojihelpers.get_build_info(nvr)`: `none` covers both the
  returned-`None` paths (after which `bi["scmurl"]` raises `TypeError`)
  and an exception escaping the helper — either way the iteration
  raises. -/
  get_build_info : String → Option BuildInfo
  /-- `kojihelpers.get_ref_overrides(bi["modulemd"])` applied to the
  given manifest (raises on `None` or an unparsable one). -/
  ref_overrides_of : Option String → Except Unit (List (String × String))

/-- One iteration of the oneshot member loop (daemon.py:114-158).
The accumulator carries the `rd_list` built so far and the state of the
Python local `ref_overrides`. -/
def oneshotStep (cfg : MainCfg) (comps : Comps) (env : OneshotEnv)
    (acc : List RebuildData × Option (Option (List (String × String))))
    (rec : String) :
    Except Unit (List RebuildData × Option (Option (List (String × String)))) :=
  match matchSelector rec with
  | none => .ok acc            -- "looks like garbage", continue
  | some (ns, comp) =>
    if comp ∈ cfg.excludeOf ns then .ok acc     -- exclude first (daemon.py:122)
    else if cfg.control.strict ∧ comp ∉ comps.keysOf ns then .ok acc
    else
      match env.get_build ns comp with
      | none => .ok acc        -- "build not tagged", continue
      | some nvr =>
        match env.get_build_info nvr with
        | none => .error ()    -- bi["scmurl"] on None: TypeError
        | some bi =>
          let scmurl := bi.scmurl
          let ref := (split_scmurl scmurl).ref
          -- `if ref:` — None and "" are both falsy (daemon.py:151)
          let refTruthy : Bool :=
            match ref with | some r => r != "" | none => false
          let roStep : Except Unit (Option (Option (List (String × String)))) :=
            if refTruthy then
              if ns = "modules" then
                match env.ref_overrides_of bi.modulemd with
                | .error _ => .error ()
                | .ok ro => .ok (some (some ro))
              else .ok (some none)       -- `ref_overrides = None`
            else .ok acc.2               -- not reassigned this iteration
          match roStep with
          | .error _ => .error ()
          | .ok roVar =>
            match roVar with
            | none => .error ()          -- UnboundLocalError (daemon.py:157)
            | some ro =>
                .ok (acc.1 ++
                  [{ ns := ns, comp := comp, version := none, release := none,
                     scmurl := some scmurl, downstream_target := none,
                     ref_overrides := ro }], roVar)

/-- The member loop of `oneshot` over the sorted selector list. -/
def oneshot_loop (cfg : MainCfg) (comps : Comps) (env : OneshotEnv) :
    List String → List RebuildData × Option (Option (List (String × String))) →
    Except Unit (List RebuildData × Option (Option (List (String × String))))
  | [], acc => .ok acc
  | rec :: rest, acc =>
    match oneshotStep cfg comps env acc rec with
    | .error e => .error e
    | .ok acc' => oneshot_loop cfg comps env rest acc'

/-- The member loop of `oneshot`: assemble `rd_list` from the sorted
selector list. -/
def oneshot_assemble (cfg : MainCfg) (comps : Comps) (env : OneshotEnv)
    (compset : List String) : Except Unit (List RebuildData) :=
  match oneshot_loop cfg comps env (pySortedLower compset) ([], none) with
  | .error e => .error e
  | .ok acc => .ok acc.1

/-- `daemon.oneshot(compset)` for a non-empty selector set (an empty set
is first expanded from `listTagged`, daemon.py:101-110, which only adds
members to `compset`): assemble `rd_list`, then hand it directly to
`build_components(None, rd_list)` (daemon.py:161). -/
def oneshot (cfg : MainCfg) (comps : Comps) (env : OneshotEnv)
    (dry_run : Bool) (endpoint : Option String) (koji_batch : Nat)
    (compset : List String) :
    Except Unit (List RebuildData × List KojiOp) := do
  let rd_list ← oneshot_assemble cfg comps env compset
  let ops ← build_components cfg dry_run endpoint koji_batch none rd_list
  pure (rd_list, ops)

/-!
## Concrete fixtures

A small well-formed `distrobaker.yaml` document (mirroring the shape of
the test-suite configuration) and variants used by the theorems below.
-/

def yCacheOk : Y :=
  Y.m [("url", .s "https://cache"), ("cgi", .s "cgi"), ("path", .s "p")]

def yEndpointOk : Y :=
  Y.m [("scm", .s "git://src"), ("cache", yCacheOk),
       ("profile", .s "koji"), ("mbs", .s "mbs")]

def yTriggerOk : Y :=
  Y.m [("rpms", .s "f42-gate"), ("modules", .s "f42-modules-gate")]

/-- A trigger block with `rpms` missing. -/
def yTriggerNoRpms : Y :=
  Y.m [("modules", .s "f42-modules-gate")]

def yBuildOk : Y :=
  Y.m [("prefix", .s "git+https://pkgs.example.com"), ("target", .s "f42"),
       ("platform", .s "f42"), ("scratch", .b false)]

def yGitOk : Y :=
  Y.m [("author", .s "a"), ("email", .s "e"), ("message", .s "m")]

def yControlOk : Y :=
  Y.m [("build", .b true), ("merge", .b true), ("strict", .b false)]

def yDefaultsPairOk : Y :=
  Y.m [("source", .s "%(component)s.git#src"),
       ("destination", .s "%(component)s.git#dst")]

def yDefaultsOk : Y :=
  Y.m [("cache", yDefaultsPairOk), ("rpms", yDefaultsPairOk),
       ("modules", yDefaultsPairOk)]

/-- The `configuration` block with a given trigger block. -/
def yConf (trig : Y) : Y :=
  Y.m [("source", yEndpointOk), ("destination", yEndpointOk),
       ("trigger", trig), ("build", yBuildOk), ("git", yGitOk),
       ("control", yControlOk), ("defaults", yDefaultsOk)]

/-- A fully valid document with an empty `components` block. -/
def yDocOk : Y :=
  Y.m [("configuration", yConf yTriggerOk), ("components", Y.m [])]

/-- Valid except that `trigger.rpms` is missing. -/
def yDocNoTriggerRpms : Y :=
  Y.m [("configuration", yConf yTriggerNoRpms), ("components", Y.m [])]

def st0 : GState := { main := none, comps := none, config_ref := none }

def envOf (y : Y) : LoadEnv :=
  { cloneFailures := 0, yamlFile := some (some y), autoFetch := none }

example : (parseMainCfg yDocOk).isSome = true := by decide
example : (load_config 3 (envOf yDocOk) st0).2.isOk = true := by decide
def envCloneDead : LoadEnv :=
  { cloneFailures := 3, yamlFile := some (some yDocOk), autoFetch := none }

example : ((load_config 3 envCloneDead st0).2).isOk = false := by decide

/-- A `defaults` block whose `cache.source` key is missing. -/
def yDefaultsNoCacheSource : Y :=
  Y.m [("cache", Y.m [("destination", .s "%(component)s")]),
       ("rpms", yDefaultsPairOk), ("modules", yDefaultsPairOk)]

/-- The `configuration` block with a given trigger and defaults block. -/
def yConfD (trig defaults : Y) : Y :=
  Y.m [("source", yEndpointOk), ("destination", yEndpointOk),
       ("trigger", trig), ("build", yBuildOk), ("git", yGitOk),
       ("control", yControlOk), ("defaults", defaults)]

/-- Valid except that `defaults.cache.source` is missing. -/
def yDocNoCacheSource : Y :=
  Y.m [("configuration", yConfD yTriggerOk yDefaultsNoCacheSource),
       ("components", Y.m [])]

def epEx : EndpointCfg :=
  { scm := "git://src", cache := ⟨"https://cache", "cgi", "p"⟩,
    profile := "koji", mbs := Y.s "mbs" }

def defaultsEx : DefaultsCfg :=
  { cache := ⟨some "%(component)s", some "%(component)s"⟩,
    rpms := ⟨some "%(component)s.git#src", some "%(component)s.git#dst"⟩,
    modules := ⟨some "%(component)s.git#src", some "%(component)s.git#dst"⟩ }

/-- A live configuration matching the end-to-end scenario of the spec:
`trigger.rpms = "f42-gate"`, `build.prefix = "git+https://pkgs.example.com"`,
`build.target = "f42"`, non-strict, nothing excluded. -/
def cfgEx : MainCfg :=
  { source := epEx, destination := epEx,
    trigger := ⟨some "f42-gate", some "f42-modules-gate"⟩,
    build := ⟨"git+https://pkgs.example.com", "f42", "f42", false⟩,
    git := ⟨"a", "e", "m"⟩,
    control := { build := true, merge := true, strict := false,
                 autopackagelist := Y.nul, exclude := ⟨[], []⟩ },
    defaults := defaultsEx }

def compsEmpty : Comps := ⟨[], []⟩

/-- A `buildsys.tag` event for `bash-5.2-1.fc42` on the rpms trigger. -/
def msgEx : TagMsg :=
  { topic := "org.fedoraproject.prod.buildsys.tag", tag := "f42-gate",
    name := "bash", version := "5.2", release := "1.fc42" }

/-- An enrichment environment in which `getBuild(build_id, strict=True)`
raised `koji.GenericError`, so `get_scmurl` logged and returned `None`
(kojihelpers.py:289-293).  The module/side-tag helpers are unused for an
rpms-trigger event. -/
def envScmFail : ClassifyEnv :=
  { buildInfo := .ok none, refOverrides := .error (),
    sideTag := .error (), scmurl := .ok none }

def KojiOp.isMcBuild : KojiOp → Bool
  | .mcBuild _ _ _ => true
  | _ => false

def KojiOp.isSessionBuild : KojiOp → Bool
  | .sessionBuild _ _ _ => true
  | _ => false

def KojiOp.isGitSync : KojiOp → Bool
  | .gitSync _ _ => true
  | _ => false

/-- Ten coalesced events for one target (spec scenario 3). -/
def rdOf (c : String) : RebuildData :=
  { ns := "rpms", comp := c, version := some "1", release := some "1",
    scmurl := some ("git://u/rpms/" ++ c ++ "#r"),
    downstream_target := some "f42", ref_overrides := none }

def builds10 : List RebuildData :=
  ["a", "b", "c", "d", "e", "f", "g", "h", "i", "j"].map rdOf

/-- A configuration in which `trigger.modules` itself matches the
stack-gate pattern derived from `trigger.rpms`
(`upstream_build_tag = "f42-build"`). -/
def cfg6 : MainCfg :=
  { cfgEx with trigger := ⟨some "f42-gate", some "f42-build-mods-stack-gate"⟩ }

def biM : BuildInfo :=
  { scmurl := "git://u/modules/x#r", name := some "x",
    stream := some "master", module_version := some "1",
    modulemd := some "mmd" }

def env6 : ClassifyEnv :=
  { buildInfo := .ok (some biM), refOverrides := .ok [("icu", "r1")],
    sideTag := .ok "f42-build-stack-gate-1",
    scmurl := .ok (some "git://u/modules/x#r") }

def msg6 : TagMsg :=
  { topic := "org.fedoraproject.prod.buildsys.tag",
    tag := "f42-build-mods-stack-gate", name := "x", version := "1",
    release := "1" }

/-- What `classify` produces for `msg6` under `cfg6`. -/
def rd6 : RebuildData :=
  { ns := "rpms", comp := "x", version := some "1", release := some "1",
    scmurl := some "git://u/modules/x#r", downstream_target := none,
    ref_overrides := some [("icu", "r1")] }

/-- Oneshot environment for the member set
`{"modules/foo", "rpms/zzz"}`: the module build `foo-1-1` has a
`#mref`-pinned scmurl and a modulemd naming one rpm ref; the rpm build
`zzz-1-1` has an scmurl with no `#ref` fragment. -/
def env7 : OneshotEnv :=
  { get_build := fun ns comp =>
      if ns = "modules" ∧ comp = "foo" then some "foo-1-1"
      else if ns = "rpms" ∧ comp = "zzz" then some "zzz-1-1"
      else none
    get_build_info := fun nvr =>
      if nvr = "foo-1-1" then
        some { scmurl := "git://u/modules/foo#mref", name := some "foo",
               stream := some "master", module_version := some "1",
               modulemd := some "mmd" }
      else if nvr = "zzz-1-1" then
        some { scmurl := "git://u/rpms/zzz", name := none, stream := none,
               module_version := none, modulemd := none }
      else none
    ref_overrides_of := fun md =>
      if md = some "mmd" then .ok [("icu", "r1")] else .error () }

def rdFoo : RebuildData :=
  { ns := "modules", comp := "foo", version := none, release := none,
    scmurl := some "git://u/modules/foo#mref", downstream_target := none,
    ref_overrides := some [("icu", "r1")] }

def rdZzz : RebuildData :=
  { ns := "rpms", comp := "zzz", version := none, release := none,
    scmurl := some "git://u/rpms/zzz", downstream_target := none,
    ref_overrides := some [("icu", "r1")] }

/-- What `classify` produces for `msgEx` when the scmurl fetch failed. -/
def rdBashNoScm : RebuildData :=
  { ns := "rpms", comp := "bash", version := some "5.2",
    release := some "1.fc42", scmurl := none, downstream_target := none,
    ref_overrides := none }

/-- A registry with two pending waiters and one already-fired (timed
out) waiter. -/
def reg8 : Registry :=
  [("f42-build", [⟨1, false⟩, ⟨2, true⟩]), ("other", [⟨3, false⟩])]

/-- The trace of a single-build non-dry run with no distrogitsync
endpoint configured. -/
def opsA : List KojiOp :=
  [KojiOp.mcOpen 500,
   KojiOp.sessionBuild "git+https://pkgs.example.com/rpms/a#r" "f42" false,
   KojiOp.mcClose]

/-!
## Helper lemmas
-/

theorem pySplit1_append (sep : Char) (a b : List Char) (h : sep ∉ a) :
    pySplit1 sep (a ++ sep :: b) = (a, some b) := by
  induction a with
  | nil => simp [pySplit1]
  | cons c cs ih =>
    have hc : c ≠ sep := fun hc => h (hc ▸ List.mem_cons_self c cs)
    have hcs : sep ∉ cs := fun hm => h (List.mem_cons_of_mem c hm)
    simp [pySplit1, hc, ih hcs]

theorem lookup_eraseReg_self (reg : Registry) (tag : String) :
    lookupReg (eraseReg reg tag) tag = none := by
  induction reg with
  | nil => rfl
  | cons e es ih =>
    by_cases hk : e.1 = tag
    · simpa [eraseReg, hk] using ih
    · simpa [eraseReg, lookupReg, hk] using ih

theorem lookup_eraseReg_ne (reg : Registry) (tag t2 : String)
    (h : t2 ≠ tag) : lookupReg (eraseReg reg tag) t2 = lookupReg reg t2 := by
  induction reg with
  | nil => rfl
  | cons e es ih =>
    by_cases hk : e.1 = tag
    · have hne : e.1 ≠ t2 := fun he => h ((he ▸ hk : t2 = tag))
      simp [eraseReg, hk, lookupReg, hne, ih, Ne.symm h]
    · simp [eraseReg, hk, lookupReg, ih]

theorem lookup_append_of_not_found (reg : Registry) (tag : String)
    (v : List Handle) (h : lookupReg reg tag = none) :
    lookupReg (reg ++ [(tag, v)]) tag = some v := by
  induction reg with
  | nil => simp [lookupReg]
  | cons e es ih =>
    by_cases hk : e.1 = tag
    · simp [lookupReg, hk] at h
    · simp only [List.cons_append, lookupReg, if_neg hk] at h ⊢
      exact ih h

theorem call_distrogitsync_none (ns comp : String)
    (ro : Option (List (String × String))) :
    call_distrogitsync none ns comp ro = [] := by
  unfold call_distrogitsync
  generalize ((ns, comp) :: (ro.getD []).map (fun c => ("rpms", c.1))) = l
  induction l with
  | nil => rfl
  | cons e es ih => simp [truthyStrOpt, ih]

/-- In a non-dry run with no distrogitsync endpoint, the per-build loop
emits exactly one direct `bsys.build` RPC per build and no git-sync
POST. -/
theorem build_components_loop_none (cfg : MainCfg) (target : String) :
    ∀ builds ops,
      build_components_loop cfg false none target builds = .ok ops →
      ops.countP (fun op => op.isGitSync) = 0
      ∧ ops.countP (fun op => op.isSessionBuild) = builds.length := by
  intro builds
  induction builds with
  | nil =>
    intro ops h
    unfold build_components_loop at h
    injection h with h
    subst h
    simp
  | cons rd rest ih =>
    intro ops h
    unfold build_components_loop at h
    cases hscm : rd.scmurl with
    | none => rw [hscm] at h; exact absurd h (by simp)
    | some url =>
      rw [hscm] at h
      simp only [Bool.false_eq_true, if_false] at h
      cases hrec : build_components_loop cfg false none target rest with
      | error e => rw [hrec] at h; exact absurd h (by simp)
      | ok tail =>
        rw [hrec] at h
        have hi := ih tail hrec
        injection h with h
        subst h
        rw [call_distrogitsync_none]
        refine ⟨?_, ?_⟩
        · rw [List.nil_append, List.cons_append, List.nil_append,
            List.countP_cons, if_neg (by simp [KojiOp.isGitSync]),
            Nat.add_zero]
          exact hi.1
        · rw [List.nil_append, List.cons_append, List.nil_append,
            List.countP_cons, List.length_cons, if_pos (by rfl), hi.2]

/-- Every non-ok exit of `load_config` leaves the global state intact:
the assignments `main = n; comps = nc` are the last statements before
the successful return (config.py:479-480). -/
theorem load_config_fail_eq (retry : Nat) (env : LoadEnv) (st st' : GState)
    (o : LoadOutcome) (h : load_config retry env st = (st', o))
    (ho : o.isOk = false) : st' = st := by
  unfold load_config at h
  split at h
  · injection h with h1 _; exact h1.symm
  · split at h
    · injection h with h1 _; exact h1.symm
    · injection h with h1 _; exact h1.symm
    · split at h
      · injection h with h1 _; exact h1.symm
      · split at h
        · injection h with h1 _; exact h1.symm
        · injection h with h1 h2
          rw [← h2] at ho
          exact absurd ho (by simp [LoadOutcome.isOk])

/-!
## The claims
-/

/-- Claim C1: config reload is atomic on failure — every run of
`load_config` that does not succeed (clone failure after all retries,
missing or unparsable `distrobaker.yaml`, a structural validation
error, or an exception from component synthesis) leaves `main`, `comps`
and `config_ref` exactly as they were, and a non-swapping
`update_config` tick (ref-lookup failure, skip, failed or raising load)
likewise leaves the state unchanged, so a good configuration is never
replaced by a bad one. -/
theorem C1_config_reload_atomic (retry : Nat) (env : LoadEnv)
    (lsRemote : Option String) (st : GState) :
    (∀ st' o, load_config retry env st = (st', o) → o.isOk = false →
      st' = st)
    ∧ (∀ st' o, update_config retry lsRemote env st = (st', o) →
        o.isOk = false → st' = st) := by
  refine ⟨fun st' o h ho => load_config_fail_eq retry env st st' o h ho, ?_⟩
  intro st' o h ho
  unfold update_config at h
  split at h
  · injection h with h1 _; exact h1.symm
  · split at h
    · injection h with h1 _; exact h1.symm
    · split at h
      · injection h with h1 _; exact h1.symm
      · split at h
        · injection h with _ h2
          rw [← h2] at ho
          exact absurd ho (by simp [UpdOutcome.isOk])
        · next st1 heq =>
          injection h with h1 _
          rw [← h1]
          exact load_config_fail_eq retry env st st1 .fail heq rfl
        · next st1 heq =>
          injection h with h1 _
          rw [← h1]
          exact load_config_fail_eq retry env st st1 .exn heq rfl

/-- Witness for C1 at concrete inputs: a load whose three clone attempts
all failed changes nothing, and an `update_config` tick whose
`git ls-remote` produced no output changes nothing. -/
theorem C1_config_reload_atomic_witness :
    (load_config 3 envCloneDead st0).1 = st0
    ∧ (update_config 3 none (envOf yDocOk) st0).1 = st0 :=
  ⟨(C1_config_reload_atomic 3 envCloneDead none st0).1
      (load_config 3 envCloneDead st0).1 (load_config 3 envCloneDead st0).2
      rfl (by decide),
   (C1_config_reload_atomic 3 (envOf yDocOk) none st0).2
      (update_config 3 none (envOf yDocOk) st0).1
      (update_config 3 none (envOf yDocOk) st0).2 rfl (by decide)⟩

/-- Claim C2 (code evaluation at the failing inputs): contrary to the
claim, `load_config` does **not** abort on a missing `trigger.rpms` or
`defaults.cache.source` key — the validation logs the error but lacks
the `return None` every sibling check has (config.py:304-308,383-393) —
so the load succeeds and installs a `main` in which the required key is
absent. -/
theorem C2_missing_required_key_still_swaps :
    ((load_config 3 (envOf yDocNoTriggerRpms) st0).2.isOk = true
      ∧ (load_config 3 (envOf yDocNoTriggerRpms) st0).1.main.map
          (fun m => m.trigger.rpms.isNone) = some true)
    ∧ ((load_config 3 (envOf yDocNoCacheSource) st0).2.isOk = true
      ∧ (load_config 3 (envOf yDocNoCacheSource) st0).1.main.map
          (fun m => m.defaults.cache.source.isNone) = some true) := by
  decide

/-- Claim C3 (code evaluation at the failing input): when
`getBuild(build_id, strict=True)` raises and `get_scmurl` therefore
returns `None` (kojihelpers.py:289-293), `process_message` does **not**
drop the event: it enqueues a `RebuildData` whose `scmurl` is `None`
(listener.py:101-108 has no check), which later makes
`build_components` raise on that batch. -/
theorem C3_enrichment_failure_still_enqueued :
    classify cfgEx compsEmpty envScmFail msgEx = .enqueued rdBashNoScm
    ∧ rdBashNoScm.scmurl = none
    ∧ build_components cfgEx false none 500 none [rdBashNoScm] =
        .error () := by decide

/-- Claim C5 (code evaluation at the failing input): for ten coalesced
events, `build_components` submits **zero** builds through the multicall
batch it opens with `batch=koji_batch=500` — the `mc` handle is unused —
and instead issues ten individual `bsys.build` RPCs on the session. -/
theorem C5_builds_bypass_multicall :
    (build_components cfgEx false none 500 (some "f42") builds10).map
      (fun ops => (ops.countP (fun op => op.isMcBuild),
                   ops.countP (fun op => op.isSessionBuild),
                   ops.head?)) =
      .ok (0, 10, some (KojiOp.mcOpen 500)) := by decide

/-- Claim C7 (code evaluation at the failing input): in oneshot mode the
Python local `ref_overrides` is only reassigned under `if ref:`
(daemon.py:151-155), so the rpms member `zzz`, whose scmurl has no
`#ref`, inherits the `ref_overrides` of the module member processed
before it instead of carrying `None`; the assembled list is still what
is handed to `build_components(target=None, builds=rd_list)`. -/
theorem C7_oneshot_stale_ref_overrides :
    oneshot_assemble cfgEx compsEmpty env7 ["modules/foo", "rpms/zzz"] =
      .ok [rdFoo, rdZzz]
    ∧ rdZzz.ns = "rpms"
    ∧ rdZzz.ref_overrides = some [("icu", "r1")]
    ∧ (oneshot cfgEx compsEmpty env7 true none 500
        ["modules/foo", "rpms/zzz"]).map Prod.fst = .ok [rdFoo, rdZzz] := by
  decide

/-- Claim C9 (counterexample): the round trip fails when `link` itself
contains `#` — at `link = "a#b"`, `ref = "c"` (both non-empty) the split
happens at the *first* `#`, so the returned link is `"a"`, not
`"a#b"`. -/
theorem C9_counterexample :
    ("a#b" : String) ≠ "" ∧ ("c" : String) ≠ ""
    ∧ (split_scmurl ("a#b" ++ "#" ++ "c")).link ≠ "a#b"
    ∧ (split_scmurl ("a#b" ++ "#" ++ "c")).ref ≠ some "c" := by decide

/-- Claim C9 (amended: `link` must additionally contain no `#`): for
every input `"{link}#{ref}"` with non-empty `link` and `ref` where
`link` contains no `#`, `split_scmurl` returns exactly that link and
ref, with `ns` the second-to-last slash-segment of `link` (`None` when
`link` has fewer than two segments) and `comp` the last slash-segment. -/
theorem C9_split_scmurl_round_trip (link ref : String)
    (_h1 : link ≠ "") (_h2 : ref ≠ "") (h3 : '#' ∉ link.data) :
    split_scmurl (link ++ "#" ++ ref) =
      { link := link, ref := some ref,
        ns := ((pySplit '/' link.data).reverse.get? 1).map
          (fun l => (⟨l⟩ : String)),
        comp := ((pySplit '/' link.data).reverse.get? 0).map
          (fun l => (⟨l⟩ : String)) } := by
  have hdata : (link ++ "#" ++ ref).data = link.data ++ '#' :: ref.data := by
    show (link.data ++ "#".data) ++ ref.data = link.data ++ '#' :: ref.data
    rw [List.append_assoc]
    rfl
  unfold split_scmurl
  rw [hdata, pySplit1_append '#' link.data ref.data h3]
  rfl

/-- Witness for C9 at `link = "u/rpms/gzip"`, `ref = "rawhide"`. -/
theorem C9_split_scmurl_round_trip_witness :
    ("u/rpms/gzip" : String) ≠ "" ∧ ("rawhide" : String) ≠ ""
    ∧ '#' ∉ ("u/rpms/gzip" : String).data
    ∧ split_scmurl ("u/rpms/gzip" ++ "#" ++ "rawhide") =
      { link := "u/rpms/gzip", ref := some "rawhide",
        ns := ((pySplit '/' ("u/rpms/gzip" : String).data).reverse.get? 1).map
          (fun l => (⟨l⟩ : String)),
        comp := ((pySplit '/' ("u/rpms/gzip" : String).data).reverse.get? 0).map
          (fun l => (⟨l⟩ : String)) } :=
  ⟨by decide, by decide, by decide,
   C9_split_scmurl_round_trip "u/rpms/gzip" "rawhide" (by decide) (by decide)
     (by decide)⟩

/-- One oneshot iteration preserves the eligibility invariant: it only
ever appends a member that passed the exclude check and the strict
check. -/
theorem oneshotStep_gates (cfg : MainCfg) (comps : Comps) (env : OneshotEnv)
    (acc acc' : List RebuildData × Option (Option (List (String × String))))
    (rec : String) (h : oneshotStep cfg comps env acc rec = .ok acc')
    (hacc : ∀ rd ∈ acc.1, rd.comp ∉ cfg.excludeOf rd.ns
      ∧ (cfg.control.strict = true → rd.comp ∈ comps.keysOf rd.ns)) :
    ∀ rd ∈ acc'.1, rd.comp ∉ cfg.excludeOf rd.ns
      ∧ (cfg.control.strict = true → rd.comp ∈ comps.keysOf rd.ns) := by
  unfold oneshotStep at h
  dsimp only at h
  repeat' split at h
  all_goals first
    | exact Except.noConfusion h
    | (injection h with h; subst h; exact hacc)
    | (injection h with h; subst h;
       intro rd hrd
       rcases List.mem_append.mp hrd with hmem | hmem
       · exact hacc rd hmem
       · rw [List.mem_singleton.mp hmem]
         dsimp only
         constructor <;> tauto)

/-- The oneshot member loop preserves the eligibility invariant. -/
theorem oneshot_loop_gates (cfg : MainCfg) (comps : Comps) (env : OneshotEnv) :
    ∀ recs acc out, oneshot_loop cfg comps env recs acc = .ok out →
      (∀ rd ∈ acc.1, rd.comp ∉ cfg.excludeOf rd.ns
        ∧ (cfg.control.strict = true → rd.comp ∈ comps.keysOf rd.ns)) →
      ∀ rd ∈ out.1, rd.comp ∉ cfg.excludeOf rd.ns
        ∧ (cfg.control.strict = true → rd.comp ∈ comps.keysOf rd.ns) := by
  intro recs
  induction recs with
  | nil =>
    intro acc out h hacc
    unfold oneshot_loop at h
    injection h with h
    subst h
    exact hacc
  | cons r rs ih =>
    intro acc out h hacc
    unfold oneshot_loop at h
    split at h
    · exact Except.noConfusion h
    · next acc' heq =>
      exact ih acc' out h (oneshotStep_gates cfg comps env acc acc' r heq hacc)

/-- Claim C4: component-eligibility gating holds on both the listener
path and the oneshot path — no `RebuildData` is ever emitted for a
component on `control.exclude[ns]`, regardless of strict mode, and under
`control.strict = true` none is ever emitted for a component not in
`comps[ns]`. -/
theorem C4_eligibility_gating (cfg : MainCfg) (comps : Comps) :
    (∀ env msg rd, classify cfg comps env msg = .enqueued rd →
        rd.comp ∉ cfg.excludeOf rd.ns
        ∧ (cfg.control.strict = true → rd.comp ∈ comps.keysOf rd.ns))
    ∧ (∀ env compset rds,
        oneshot_assemble cfg comps env compset = .ok rds →
        ∀ rd ∈ rds, rd.comp ∉ cfg.excludeOf rd.ns
          ∧ (cfg.control.strict = true → rd.comp ∈ comps.keysOf rd.ns)) := by
  constructor
  · intro env msg rd h
    unfold classify at h
    dsimp only at h
    repeat' split at h
    all_goals first
      | exact ClassifyOutcome.noConfusion h
      | (injection h with h; subst h; dsimp only; constructor <;> tauto)
  · intro env compset rds h
    unfold oneshot_assemble at h
    split at h
    · exact Except.noConfusion h
    · next acc heq =>
      injection h with h
      subst h
      exact oneshot_loop_gates cfg comps env (pySortedLower compset)
        ([], none) acc heq (by intro rd hrd; exact absurd hrd (by simp))

/-- Witness for C4: the classified `bash` event of scenario 1 is
eligible, and so is every member of the oneshot assembly of C7's
fixture. -/
theorem C4_eligibility_gating_witness :
    (rdBashNoScm.comp ∉ cfgEx.excludeOf rdBashNoScm.ns
      ∧ (cfgEx.control.strict = true →
          rdBashNoScm.comp ∈ compsEmpty.keysOf rdBashNoScm.ns))
    ∧ (rdZzz.comp ∉ cfgEx.excludeOf rdZzz.ns
      ∧ (cfgEx.control.strict = true →
          rdZzz.comp ∈ compsEmpty.keysOf rdZzz.ns)) :=
  ⟨(C4_eligibility_gating cfgEx compsEmpty).1 envScmFail msgEx rdBashNoScm
      (by decide),
   (C4_eligibility_gating cfgEx compsEmpty).2 env7
      ["modules/foo", "rpms/zzz"] [rdFoo, rdZzz] (by decide) rdZzz
      (by decide)⟩

/-- Claim C6 (counterexample): with `trigger.rpms = "f42-gate"` and
`trigger.modules = "f42-build-mods-stack-gate"` — a modules trigger that
also matches the stack-gate pattern of `upstream_build_tag =
"f42-build"` — an event on the modules trigger is classified
`ns = "rpms"`, not `ns = "modules"`: the source checks the
stack-gate/side pattern *before* the modules-trigger equality
(listener.py:63-70), the reverse of the spec's taxonomy order. -/
theorem C6_counterexample :
    cfg6.trigger.modules = some msg6.tag
    ∧ classify cfg6 compsEmpty env6 msg6 = .enqueued rd6
    ∧ rd6.ns ≠ "modules" := by decide

/-- Claim C6 (amended): the classifier evaluates the stack-gate/side
pattern *before* the modules-trigger equality.  For an event whose tag
equals `main.trigger.modules` and differs from `main.trigger.rpms`: if
the tag does not match the stack-gate/side pattern it is classified
`ns = modules` with `target_override = None`; if it does match, it is
classified `ns = rpms`, yet `target_override` is still `None`, because
the enrichment branch tests the modules-trigger equality first
(listener.py:87). -/
theorem C6_taxonomy_order (cfg : MainCfg) (comps : Comps)
    (env : ClassifyEnv) (msg : TagMsg) (rd : RebuildData) (trpms : String)
    (hr : cfg.trigger.rpms = some trpms)
    (hm : cfg.trigger.modules = some msg.tag)
    (hne : msg.tag ≠ trpms)
    (h : classify cfg comps env msg = .enqueued rd) :
    (sideTagPattern (pyReplace trpms "-gate" "-build") msg.tag = false →
      rd.ns = "modules" ∧ rd.downstream_target = none)
    ∧ (sideTagPattern (pyReplace trpms "-gate" "-build") msg.tag = true →
      rd.ns = "rpms" ∧ rd.downstream_target = none) := by
  unfold classify at h
  rw [hr] at h
  dsimp only at h
  constructor
  · intro hp
    simp only [hm, hp, if_neg hne, Bool.false_eq_true, if_false,
      eq_self_iff_true, if_true] at h
    rcases hbi : env.buildInfo with u | obi <;> rw [hbi] at h
    all_goals try (rcases obi with _ | bi)
    all_goals (rcases hro : env.refOverrides with u2 | ro <;> rw [hro] at h)
    all_goals (rcases hs : env.scmurl with u3 | sc <;> rw [hs] at h)
    all_goals
      (try dsimp only at h
       split at h
       · exact ClassifyOutcome.noConfusion h
       split at h
       · exact ClassifyOutcome.noConfusion h
       split at h
       · exact ClassifyOutcome.noConfusion h
       first
         | exact ClassifyOutcome.noConfusion h
         | (injection h with h; subst h; exact ⟨rfl, rfl⟩))
  · intro hp
    simp only [hm, hp, if_neg hne, eq_self_iff_true, if_true] at h
    rcases hbi : env.buildInfo with u | obi <;> rw [hbi] at h
    all_goals try (rcases obi with _ | bi)
    all_goals (rcases hro : env.refOverrides with u2 | ro <;> rw [hro] at h)
    all_goals (rcases hs : env.scmurl with u3 | sc <;> rw [hs] at h)
    all_goals
      (try dsimp only at h
       split at h
       · exact ClassifyOutcome.noConfusion h
       split at h
       · exact ClassifyOutcome.noConfusion h
       split at h
       · exact ClassifyOutcome.noConfusion h
       first
         | exact ClassifyOutcome.noConfusion h
         | (injection h with h; subst h; exact ⟨rfl, rfl⟩))

/-- Witness for C6 at the fixture of the counterexample (the
pattern-matching case). -/
theorem C6_taxonomy_order_witness :
    cfg6.trigger.rpms = some "f42-gate"
    ∧ cfg6.trigger.modules = some msg6.tag
    ∧ msg6.tag ≠ "f42-gate"
    ∧ ((sideTagPattern (pyReplace "f42-gate" "-gate" "-build") msg6.tag
          = false → rd6.ns = "modules" ∧ rd6.downstream_target = none)
      ∧ (sideTagPattern (pyReplace "f42-gate" "-gate" "-build") msg6.tag
          = true → rd6.ns = "rpms" ∧ rd6.downstream_target = none)) :=
  ⟨by decide, by decide, by decide,
   C6_taxonomy_order cfg6 compsEmpty env6 msg6 rd6 "f42-gate" (by decide)
     (by decide) (by decide) (by decide)⟩

/-- Claim C8: a `buildsys.repo.done` event for tag `T` fulfils exactly
the pending wait-handles registered under `T` before the event and
removes the registry entry for `T`; other tags' entries are untouched; a
handle registered after the event is a fresh pending one, fulfilled only
by a later event; an event for an unregistered tag is a no-op that
creates no entry; and a handle already resolved (e.g. by timeout) is
silently skipped, not re-fired. -/
theorem C8_awaited_repo_rendezvous (reg : Registry) (tag t2 : String)
    (hs : List Handle) (hid : Nat) :
    (lookupReg reg tag = none → process_repo_done reg tag = (reg, []))
    ∧ (lookupReg reg tag = some hs →
        (process_repo_done reg tag).2 =
            (hs.filter (fun h => !h.called)).map Handle.id
        ∧ lookupReg (process_repo_done reg tag).1 tag = none
        ∧ (t2 ≠ tag →
            lookupReg (process_repo_done reg tag).1 t2 = lookupReg reg t2)
        ∧ ((hs.map Handle.id).Nodup → ∀ h ∈ hs, h.called = true →
            h.id ∉ (process_repo_done reg tag).2)
        ∧ lookupReg (wait_repo (process_repo_done reg tag).1 tag hid) tag =
            some [⟨hid, false⟩]
        ∧ (process_repo_done
            (wait_repo (process_repo_done reg tag).1 tag hid) tag).2 =
            [hid]) := by
  constructor
  · intro h
    unfold process_repo_done
    rw [h]
  · intro h
    have hP : process_repo_done reg tag =
        (eraseReg reg tag, (hs.filter (fun h => !h.called)).map Handle.id) := by
      unfold process_repo_done
      rw [h]
    have hW : wait_repo (eraseReg reg tag) tag hid =
        eraseReg reg tag ++ [(tag, [⟨hid, false⟩])] := by
      unfold wait_repo
      rw [lookup_eraseReg_self]
    refine ⟨by rw [hP], by rw [hP]; exact lookup_eraseReg_self reg tag,
      fun hne => by rw [hP]; exact lookup_eraseReg_ne reg tag t2 hne,
      ?_, ?_, ?_⟩
    · intro hnd h' hmem hcalled hin
      rw [hP] at hin
      obtain ⟨h2, hh2, hid2⟩ := List.mem_map.mp hin
      have hh2s : h2 ∈ hs := List.mem_of_mem_filter hh2
      have heq : h2 = h' :=
        List.inj_on_of_nodup_map hnd hh2s hmem hid2
      have hfa := List.of_mem_filter hh2
      rw [heq] at hfa
      simp [hcalled] at hfa
    · rw [hP, hW]
      exact lookup_append_of_not_found (eraseReg reg tag) tag _
        (lookup_eraseReg_self reg tag)
    · rw [hP, hW]
      unfold process_repo_done
      rw [lookup_append_of_not_found (eraseReg reg tag) tag _
        (lookup_eraseReg_self reg tag)]
      rfl

/-- Witness for C8 on a concrete registry: the unknown tag `"missing"`
is a no-op, and the event for `"f42-build"` fires exactly the pending
handle `1`, skipping the timed-out handle `2`. -/
theorem C8_awaited_repo_rendezvous_witness :
    process_repo_done reg8 "missing" = (reg8, [])
    ∧ (process_repo_done reg8 "f42-build").2 =
        ([⟨1, false⟩, ⟨2, true⟩].filter
          (fun h => !Handle.called h)).map Handle.id :=
  ⟨(C8_awaited_repo_rendezvous reg8 "missing" "other" [] 9).1 (by decide),
   ((C8_awaited_repo_rendezvous reg8 "f42-build" "other"
      [⟨1, false⟩, ⟨2, true⟩] 9).2 (by decide)).1⟩

/-- Claim C10: with no distrogitsync endpoint configured,
`call_distrogitsync` performs no HTTP POST and returns normally for
every namespace, component and `ref_overrides` mapping, and a non-dry
`build_components` run still submits one downstream build per
`RebuildData` with the git-sync step silently skipped. -/
theorem C10_no_endpoint_skips_gitsync :
    (∀ ns comp ro, call_distrogitsync none ns comp ro = [])
    ∧ (∀ cfg kb t builds ops,
        build_components cfg false none kb t builds = .ok ops →
        ops.countP (fun op => op.isGitSync) = 0
        ∧ ops.countP (fun op => op.isSessionBuild) = builds.length) := by
  refine ⟨call_distrogitsync_none, ?_⟩
  intro cfg kb t builds ops h
  unfold build_components at h
  split at h <;>
    (try dsimp only at h) <;>
    (split at h
     · exact Except.noConfusion h
     · next inner heq =>
       injection h with h
       subst h
       have hi := build_components_loop_none cfg _ builds inner heq
       refine ⟨?_, ?_⟩
       · rw [List.countP_append, List.countP_append,
           List.countP_cons, List.countP_cons, List.countP_nil,
           if_neg (by simp [KojiOp.isGitSync]),
           if_neg (by simp [KojiOp.isGitSync]), hi.1]
       · rw [List.countP_append, List.countP_append,
           List.countP_cons, List.countP_cons, List.countP_nil,
           if_neg (by simp [KojiOp.isSessionBuild]),
           if_neg (by simp [KojiOp.isSessionBuild]), hi.2]
         omega)

/-- Witness for C10 on a concrete one-build batch: no git-sync op, one
session build. -/
theorem C10_no_endpoint_skips_gitsync_witness :
    call_distrogitsync none "rpms" "bash" none = []
    ∧ (opsA.countP (fun op => op.isGitSync) = 0
      ∧ opsA.countP (fun op => op.isSessionBuild) = [rdOf "a"].length) :=
  ⟨C10_no_endpoint_skips_gitsync.1 "rpms" "bash" none,
   C10_no_endpoint_skips_gitsync.2 cfgEx 500 (some "f42") [rdOf "a"] opsA
     (by decide)⟩

end DBS
